import Mathlib

/-!
Verification of the financial computation layer of the arthaai
personal-finance dashboard.  The Python functions of
`data_processing.py`, `moneyanalyser.py` and `frontend.py` are pure
arithmetic on numbers; they are embedded here over `ℚ`, so the
"floating-point tolerance" statements of the specification become
exact equalities.
-/

namespace ArthaAI

/-! ## Budget summary (`data_processing.calculate_budget_summary`) -/

structure BudgetSummary where
  income : ℚ
  total_expenses : ℚ
  remaining : ℚ
  savings_rate : ℚ
  deriving Repr, DecidableEq

/-- Embedding of `calculate_budget_summary(income, expenses)`.  The Python
`expenses` dict is modelled as an association list; `not expenses` is the
empty list. -/
def calculate_budget_summary (income : ℚ) (expenses : List (String × ℚ)) :
    BudgetSummary :=
  if expenses = [] then
    { income := income
      total_expenses := 0
      remaining := income
      savings_rate := if 0 < income then 100 else 0 }
  else
    let total_expenses := (expenses.map (·.2)).sum
    let remaining := income - total_expenses
    let savings_rate := if 0 < income then remaining / income * 100 else 0
    { income := income
      total_expenses := total_expenses
      remaining := remaining
      savings_rate := savings_rate }

/-! ## Loan payment (`data_processing.calculate_loan_payment`) -/

/-- Embedding of `calculate_loan_payment(principal, annual_rate, years)`. -/
def calculate_loan_payment (principal annual_rate : ℚ) (years : ℕ) : ℚ :=
  let monthly_rate := annual_rate / 12
  let n_payments : ℚ := (years * 12 : ℕ)
  if monthly_rate = 0 then principal / n_payments
  else
    principal * (monthly_rate * (1 + monthly_rate) ^ (years * 12)) /
      ((1 + monthly_rate) ^ (years * 12) - 1)

/-! ## Amortization schedule (`data_processing.generate_amortization_schedule`) -/

structure AmortRow where
  month : ℕ
  payment : ℚ
  principal : ℚ
  interest : ℚ
  remaining_balance : ℚ
  deriving Repr, DecidableEq, Inhabited

/-- The month loop of `generate_amortization_schedule`, with `k` months left
to emit: interest = balance * monthly_rate, principal portion =
payment - interest, the running balance is decreased by the principal
portion, and the STORED remaining_balance is clamped with `max(0, ...)`
(the running variable itself is not clamped). -/
def amortAux (monthly_payment monthly_rate : ℚ) : ℕ → ℕ → ℚ → List AmortRow
  | _, 0, _ => []
  | month, k + 1, remaining_balance =>
    let interest_payment := remaining_balance * monthly_rate
    let principal_payment := monthly_payment - interest_payment
    let new_balance := remaining_balance - principal_payment
    { month := month, payment := monthly_payment,
      principal := principal_payment, interest := interest_payment,
      remaining_balance := max 0 new_balance } ::
      amortAux monthly_payment monthly_rate (month + 1) k new_balance

/-- Embedding of `generate_amortization_schedule(principal, annual_rate,
years)`: months run 1 .. years*12 starting from the full principal. -/
def generate_amortization_schedule (principal annual_rate : ℚ) (years : ℕ) :
    List AmortRow :=
  amortAux (calculate_loan_payment principal annual_rate years)
    (annual_rate / 12) 1 (years * 12) principal

/-- The running (unclamped) balance after `k` months of the amortization
loop. -/
def amortBal (monthly_payment monthly_rate : ℚ) : ℕ → ℚ → ℚ
  | 0, b => b
  | k + 1, b =>
    amortBal monthly_payment monthly_rate k (b * (1 + monthly_rate) - monthly_payment)

/-! ## Debt-to-income ratio (`moneyanalyser.calculate_debt_to_income_ratio`) -/

/-- Embedding of `calculate_debt_to_income_ratio`; Python's `None` is
`Option.none`. -/
def calculate_debt_to_income_ratio (monthly_debt_payments monthly_income : ℚ) :
    Option ℚ :=
  if monthly_income ≤ 0 then none
  else some (monthly_debt_payments / monthly_income)

/-! ## Investment returns (`data_processing.calculate_investment_returns`)
and the year-by-year simulation (`frontend.create_investment_growth_chart`) -/

/-- Embedding of `calculate_investment_returns`; the result triple is
(final_amount, total_contribution, total_earnings). -/
def calculate_investment_returns (initial_investment monthly_contribution : ℚ)
    (years : ℕ) (rate_of_return : ℚ) : ℚ × ℚ × ℚ :=
  let monthly_rate := rate_of_return / 12
  let months := years * 12
  let base := initial_investment * (1 + monthly_rate) ^ months
  let final_amount :=
    if 0 < monthly_rate then
      base + monthly_contribution * (((1 + monthly_rate) ^ months - 1) / monthly_rate)
    else base + monthly_contribution * (months : ℚ)
  let total_contribution := initial_investment + monthly_contribution * (months : ℚ)
  (final_amount, total_contribution, final_amount - total_contribution)

structure GrowthPoint where
  year : ℕ
  value : ℚ
  contributions : ℚ
  earnings : ℚ
  deriving Repr, DecidableEq, Inhabited

/-- One iteration of the inner month loop of `create_investment_growth_chart`
on the state (current_value, total_contributions):
`current_value = current_value * (1 + monthly_rate) + monthly_contribution`
and `total_contributions += monthly_contribution`. -/
def investMonthStep (monthly_rate monthly_contribution : ℚ) (s : ℚ × ℚ) : ℚ × ℚ :=
  (s.1 * (1 + monthly_rate) + monthly_contribution, s.2 + monthly_contribution)

/-- The state (current_value, total_contributions) of the
`create_investment_growth_chart` loop at the end of a given year: twelve
month steps per year, starting from (initial, initial). -/
def investState (initial_investment monthly_contribution monthly_rate : ℚ) :
    ℕ → ℚ × ℚ
  | 0 => (initial_investment, initial_investment)
  | year + 1 =>
    (investMonthStep monthly_rate monthly_contribution)^[12]
      (investState initial_investment monthly_contribution monthly_rate year)

/-- The list of data points built by `create_investment_growth_chart`
(years 0 through `years`), with `earnings = value - contributions`. -/
def create_investment_growth_chart_data
    (initial_investment monthly_contribution : ℚ) (years : ℕ)
    (rate_of_return : ℚ) : List GrowthPoint :=
  (List.range (years + 1)).map fun year =>
    let s := investState initial_investment monthly_contribution
      (rate_of_return / 12) year
    { year := year, value := s.1, contributions := s.2, earnings := s.1 - s.2 }

/-! ## Retirement readiness (`moneyanalyser.analyze_retirement_readiness`) -/

structure RetirementAnalysis where
  years_until_retirement : ℤ
  retirement_years : ℤ
  projected_savings : ℚ
  sustainable_annual_income : ℚ
  income_gap : ℚ
  income_gap_percentage : ℚ
  on_track : Bool
  deriving Repr, DecidableEq

/-- Embedding of `analyze_retirement_readiness`.  Ages are integers; the
Python literal `0.04` is the exact rational 4/100.  The `try/except`
wrapper never fires on exact rational arithmetic, so the success payload is
returned directly. -/
def analyze_retirement_readiness (current_age retirement_age life_expectancy : ℤ)
    (current_savings monthly_contribution expected_return
     desired_retirement_income : ℚ) : RetirementAnalysis :=
  let years_until_retirement := retirement_age - current_age
  let retirement_years := life_expectancy - retirement_age
  let future_value_current_savings :=
    current_savings * (1 + expected_return) ^ years_until_retirement
  let monthly_return := expected_return / 12
  let months_until_retirement := years_until_retirement * 12
  let future_value_contributions :=
    if 0 < monthly_return then
      monthly_contribution *
        (((1 + monthly_return) ^ months_until_retirement - 1) / monthly_return)
    else monthly_contribution * (months_until_retirement : ℚ)
  let projected_savings := future_value_current_savings + future_value_contributions
  let sustainable_withdrawal_rate : ℚ := 4 / 100
  let sustainable_annual_income := projected_savings * sustainable_withdrawal_rate
  let income_gap := desired_retirement_income - sustainable_annual_income
  let income_gap_percentage :=
    if 0 < desired_retirement_income then
      income_gap / desired_retirement_income * 100
    else 0
  let on_track := decide (desired_retirement_income ≤ sustainable_annual_income)
  { years_until_retirement := years_until_retirement
    retirement_years := retirement_years
    projected_savings := projected_savings
    sustainable_annual_income := sustainable_annual_income
    income_gap := income_gap
    income_gap_percentage := income_gap_percentage
    on_track := on_track }

/-! ## Mortgage affordability (`moneyanalyser.analyze_mortgage_affordability`) -/

structure PricePoint where
  home_price : ℚ
  monthly_payment : ℚ
  affordable : Bool
  mortgage : ℚ
  property_tax : ℚ
  insurance : ℚ
  pmi : ℚ
  deriving Repr, DecidableEq, Inhabited

structure MortgageAffordability where
  max_housing_payment : ℚ
  max_affordable_price : ℚ
  price_ranges : List PricePoint
  deriving Repr, DecidableEq

/-- The `monthly_pmi` local of the sweep body: PMI is charged when
`down_payment / home_price < 0.2` (the Python literal `0.2` is the
rational 2/10), at `loan_amount * pmi_rate / 12`. -/
def mortPmi (down_payment pmi_rate : ℚ) (price_multiple : ℕ) : ℚ :=
  if down_payment / ((price_multiple : ℚ) * 50000) < 2 / 10 then
    ((price_multiple : ℚ) * 50000 - down_payment) * pmi_rate / 12
  else 0

/-- The `monthly_mortgage` local of the sweep body: the annuity formula on
the loan amount, with the zero-rate special case. -/
def mortMortgage (down_payment interest_rate : ℚ) (term_years : ℕ)
    (price_multiple : ℕ) : ℚ :=
  if interest_rate / 12 = 0 then
    ((price_multiple : ℚ) * 50000 - down_payment) / ((term_years * 12 : ℕ) : ℚ)
  else
    ((price_multiple : ℚ) * 50000 - down_payment) *
        (interest_rate / 12 * (1 + interest_rate / 12) ^ (term_years * 12)) /
      ((1 + interest_rate / 12) ^ (term_years * 12) - 1)

/-- The `monthly_tax` local of the sweep body:
`(home_price * property_tax_rate) / 12`. -/
def mortTax (property_tax_rate : ℚ) (price_multiple : ℕ) : ℚ :=
  (price_multiple : ℚ) * 50000 * property_tax_rate / 12

/-- The `monthly_total` local of the sweep body: mortgage plus property tax
plus insurance plus PMI. -/
def mortTotal (down_payment interest_rate : ℚ) (term_years : ℕ)
    (property_tax_rate insurance pmi_rate : ℚ) (price_multiple : ℕ) : ℚ :=
  mortMortgage down_payment interest_rate term_years price_multiple +
    mortTax property_tax_rate price_multiple + insurance +
    mortPmi down_payment pmi_rate price_multiple

/-- One iteration of the price sweep of `analyze_mortgage_affordability` at
a given price multiple (home_price = multiple * 50000): `none` models the
`continue` on non-positive loan amounts. -/
def mortgagePricePoint (down_payment interest_rate : ℚ) (term_years : ℕ)
    (property_tax_rate insurance pmi_rate max_housing_payment : ℚ)
    (price_multiple : ℕ) : Option PricePoint :=
  if (price_multiple : ℚ) * 50000 - down_payment ≤ 0 then none
  else
    some { home_price := (price_multiple : ℚ) * 50000
           monthly_payment := mortTotal down_payment interest_rate term_years
             property_tax_rate insurance pmi_rate price_multiple
           affordable := decide (mortTotal down_payment interest_rate term_years
             property_tax_rate insurance pmi_rate price_multiple ≤
               max_housing_payment)
           mortgage := mortMortgage down_payment interest_rate term_years
             price_multiple
           property_tax := mortTax property_tax_rate price_multiple
           insurance := insurance
           pmi := mortPmi down_payment pmi_rate price_multiple }

/-- One step of the sweep loop on the threaded state
(price_ranges, max_price): a skipped multiple leaves the state unchanged,
otherwise the point is appended and, when affordable, max_price is
overwritten with its home_price. -/
def mortgageSweepStep (f : ℕ → Option PricePoint)
    (st : List PricePoint × ℚ) (price_multiple : ℕ) : List PricePoint × ℚ :=
  match f price_multiple with
  | none => st
  | some pt => (st.1 ++ [pt], if pt.affordable then pt.home_price else st.2)

/-- The price sweep loop of `analyze_mortgage_affordability`: price
multiples 1..15 (`range(1, 16)`), with max_price initialised to 0. -/
def mortgageSweep (down_payment interest_rate : ℚ) (term_years : ℕ)
    (property_tax_rate insurance pmi_rate max_housing_payment : ℚ) :
    List PricePoint × ℚ :=
  (List.range' 1 15).foldl
    (mortgageSweepStep (mortgagePricePoint down_payment interest_rate
      term_years property_tax_rate insurance pmi_rate max_housing_payment))
    ([], 0)

/-- Embedding of `analyze_mortgage_affordability` (success payload; the
`try/except` wrapper never fires on exact rational arithmetic).  The
Python literals 0.28 and 0.36 are the rationals 28/100 and 36/100; the
keyword defaults (property_tax_rate=0.01, insurance=100, pmi_rate=0.005)
are passed explicitly here. -/
def analyze_mortgage_affordability (income debt down_payment interest_rate : ℚ)
    (term_years : ℕ) (property_tax_rate insurance pmi_rate : ℚ) :
    MortgageAffordability :=
  let monthly_income := income / 12
  let front_end_max := monthly_income * (28 / 100)
  let back_end_max := monthly_income * (36 / 100) - debt
  let max_housing_payment := min front_end_max back_end_max
  let sweep := mortgageSweep down_payment interest_rate term_years
    property_tax_rate insurance pmi_rate max_housing_payment
  { max_housing_payment := max_housing_payment
    max_affordable_price := sweep.2
    price_ranges := sweep.1 }

/-! ## Portfolio metrics (`moneyanalyser.calculate_portfolio_metrics`) -/

structure HoldingInput where
  ticker : String
  shares : ℚ
  cost_basis : ℚ
  deriving Repr, DecidableEq

structure HoldingData where
  ticker : String
  shares : ℚ
  cost_basis : ℚ
  latest_price : ℚ
  current_value : ℚ
  gain_loss : ℚ
  gain_loss_pct : ℚ
  deriving Repr, DecidableEq

structure PortfolioMetrics where
  total_value : ℚ
  total_cost : ℚ
  total_gain_loss : ℚ
  total_gain_loss_pct : ℚ
  holdings_data : List HoldingData
  deriving Repr, DecidableEq

/-- Embedding of `calculate_portfolio_metrics(holdings)`.  The market-data
gateway (`yf.Ticker(...).history`) is abstracted as a price oracle
`getPrice : String → Option ℚ`; `none` models an empty history, which the
code skips.  The Python `except` branch returns an error string, modelled
by the `Except.error` constructor. -/
def calculate_portfolio_metrics (getPrice : String → Option ℚ)
    (holdings : List HoldingInput) : Except String PortfolioMetrics :=
  if holdings = [] then
    .ok { total_value := 0, total_cost := 0, total_gain_loss := 0,
          total_gain_loss_pct := 0, holdings_data := [] }
  else
    let st := holdings.foldl
      (fun (st : List HoldingData × ℚ × ℚ) h =>
        match getPrice h.ticker with
        | none => st
        | some latest_price =>
          let current_value := h.shares * latest_price
          let total_cost_basis := h.shares * h.cost_basis
          let gain_loss := current_value - total_cost_basis
          let gain_loss_pct :=
            if 0 < total_cost_basis then gain_loss / total_cost_basis * 100 else 0
          (st.1 ++ [{ ticker := h.ticker, shares := h.shares,
                      cost_basis := h.cost_basis, latest_price := latest_price,
                      current_value := current_value, gain_loss := gain_loss,
                      gain_loss_pct := gain_loss_pct }],
           st.2.1 + current_value, st.2.2 + total_cost_basis))
      ([], 0, 0)
    let total_gain_loss := st.2.1 - st.2.2
    .ok { total_value := st.2.1, total_cost := st.2.2,
          total_gain_loss := total_gain_loss,
          total_gain_loss_pct :=
            if 0 < st.2.2 then total_gain_loss / st.2.2 * 100 else 0,
          holdings_data := st.1 }

/-! ## Stock metrics (`moneyanalyser.get_stock_metrics`) -/

/-- Embedding of the trailing-return computation of `get_stock_metrics` on a
fetched close series: `iloc[-1]` is `getD (n-1)`, `iloc[-21]` is
`getD (n-21)`, `iloc[-63]` is `getD (n-63)`, and the 1-year branch uses
`iloc[0]`, i.e. `getD 0`.  Result is (1mo, 3mo, 1yr) returns. -/
def get_stock_metrics_returns (closes : List ℚ) :
    Option ℚ × Option ℚ × Option ℚ :=
  let n := closes.length
  let current_price := closes.getD (n - 1) 0
  let return_1mo :=
    if 21 ≤ n then some ((current_price / closes.getD (n - 21) 0 - 1) * 100)
    else none
  let return_3mo :=
    if 63 ≤ n then some ((current_price / closes.getD (n - 63) 0 - 1) * 100)
    else none
  let return_1yr :=
    if 252 ≤ n then some ((current_price / closes.getD 0 0 - 1) * 100)
    else none
  (return_1mo, return_3mo, return_1yr)

/-- A 253-day close history whose first two closes differ: element 0 is 1,
element 1 is 2, the last close is 4. -/
def exCloses : List ℚ := 1 :: 2 :: (List.replicate 250 1 ++ [4])

/-! ## Theorems for the simple claims -/

/-- C6: for every income ≥ 0, `calculate_budget_summary` applied to an empty
expense mapping returns total_expenses = 0, remaining = income, and
savings_rate = 100 when income > 0 and 0 when income = 0. -/
theorem budget_summary_empty_expenses (income : ℚ) (_hinc : 0 ≤ income) :
    (calculate_budget_summary income []).total_expenses = 0 ∧
    (calculate_budget_summary income []).remaining = income ∧
    (0 < income → (calculate_budget_summary income []).savings_rate = 100) ∧
    (income = 0 → (calculate_budget_summary income []).savings_rate = 0) := by
  refine ⟨rfl, rfl, ?_, ?_⟩
  · intro h
    simp [calculate_budget_summary, h]
  · intro h
    simp [calculate_budget_summary, h]

theorem budget_summary_empty_expenses_witness :
    (calculate_budget_summary 5 []).total_expenses = 0 ∧
    (calculate_budget_summary 5 []).remaining = 5 ∧
    ((0 : ℚ) < 5 → (calculate_budget_summary 5 []).savings_rate = 100) ∧
    ((5 : ℚ) = 0 → (calculate_budget_summary 5 []).savings_rate = 0) :=
  budget_summary_empty_expenses 5 (by norm_num)

/-- C7: for every principal and every positive number of years, the zero-rate
loan payment is exactly principal / (years * 12). -/
theorem loan_payment_zero_rate (principal : ℚ) (years : ℕ) (_h : 0 < years) :
    calculate_loan_payment principal 0 years = principal / (years * 12 : ℕ) := by
  simp [calculate_loan_payment]

theorem loan_payment_zero_rate_witness :
    calculate_loan_payment 1200 0 1 = 1200 / ((1 * 12 : ℕ) : ℚ) :=
  loan_payment_zero_rate 1200 1 (by norm_num)

/-- C8: `calculate_debt_to_income_ratio` returns the undefined sentinel
(`none`) exactly when monthly_income ≤ 0, returns the quotient when
monthly_income > 0, and in particular returns `none` at income 0. -/
theorem debt_to_income_ratio_spec (x monthly_income : ℚ) :
    (monthly_income ≤ 0 → calculate_debt_to_income_ratio x monthly_income = none) ∧
    (0 < monthly_income →
      calculate_debt_to_income_ratio x monthly_income = some (x / monthly_income)) ∧
    calculate_debt_to_income_ratio x 0 = none := by
  refine ⟨?_, ?_, ?_⟩
  · intro h
    simp [calculate_debt_to_income_ratio, h]
  · intro h
    simp [calculate_debt_to_income_ratio, not_le.mpr h]
  · simp [calculate_debt_to_income_ratio]

theorem debt_to_income_ratio_spec_witness :
    ((7 : ℚ) ≤ 0 → calculate_debt_to_income_ratio 3 7 = none) ∧
    ((0 : ℚ) < 7 → calculate_debt_to_income_ratio 3 7 = some (3 / 7)) ∧
    calculate_debt_to_income_ratio 3 0 = none :=
  debt_to_income_ratio_spec 3 7

/-- C5: for every input, the retirement analysis has on_track true iff
sustainable_annual_income ≥ desired_retirement_income (4% rule), and
income_gap_percentage = (income_gap / desired) * 100 when desired > 0 and
0 when desired = 0. -/
theorem retirement_on_track_gap_pct
    (current_age retirement_age life_expectancy : ℤ)
    (current_savings monthly_contribution expected_return
     desired_retirement_income : ℚ) :
    ((analyze_retirement_readiness current_age retirement_age life_expectancy
        current_savings monthly_contribution expected_return
        desired_retirement_income).on_track = true ↔
      desired_retirement_income ≤
        (analyze_retirement_readiness current_age retirement_age life_expectancy
          current_savings monthly_contribution expected_return
          desired_retirement_income).sustainable_annual_income) ∧
    (0 < desired_retirement_income →
      (analyze_retirement_readiness current_age retirement_age life_expectancy
        current_savings monthly_contribution expected_return
        desired_retirement_income).income_gap_percentage =
      (analyze_retirement_readiness current_age retirement_age life_expectancy
        current_savings monthly_contribution expected_return
        desired_retirement_income).income_gap / desired_retirement_income * 100) ∧
    (desired_retirement_income = 0 →
      (analyze_retirement_readiness current_age retirement_age life_expectancy
        current_savings monthly_contribution expected_return
        desired_retirement_income).income_gap_percentage = 0) := by
  refine ⟨by simp [analyze_retirement_readiness], ?_, ?_⟩
  · intro h
    simp [analyze_retirement_readiness, if_pos h]
  · intro h
    simp [analyze_retirement_readiness, h]

theorem retirement_on_track_gap_pct_witness :
    ((analyze_retirement_readiness 30 65 90 1000 100 (7/100) 0).on_track = true ↔
      (0 : ℚ) ≤ (analyze_retirement_readiness 30 65 90 1000 100 (7/100)
        0).sustainable_annual_income) ∧
    ((0 : ℚ) < 0 →
      (analyze_retirement_readiness 30 65 90 1000 100 (7/100)
        0).income_gap_percentage =
      (analyze_retirement_readiness 30 65 90 1000 100 (7/100)
        0).income_gap / 0 * 100) ∧
    ((0 : ℚ) = 0 →
      (analyze_retirement_readiness 30 65 90 1000 100 (7/100)
        0).income_gap_percentage = 0) :=
  retirement_on_track_gap_pct 30 65 90 1000 100 (7/100) 0

/-- C9: `calculate_portfolio_metrics` on an empty holdings list returns the
explicit all-zero success result with an empty breakdown, for every price
oracle — never an error. -/
theorem portfolio_metrics_empty_holdings (getPrice : String → Option ℚ) :
    calculate_portfolio_metrics getPrice [] =
      .ok { total_value := 0, total_cost := 0, total_gain_loss := 0,
            total_gain_loss_pct := 0, holdings_data := [] } :=
  rfl

set_option maxRecDepth 10000 in
theorem exCloses_length : exCloses.length = 253 := by rfl

set_option maxRecDepth 10000 in
theorem exCloses_elem0 : exCloses[0]? = some 1 := by rfl

set_option maxRecDepth 10000 in
theorem exCloses_elem1 : exCloses[1]? = some 2 := by rfl

set_option maxRecDepth 10000 in
theorem exCloses_elem252 : exCloses[252]? = some 4 := by rfl

set_option maxRecDepth 10000 in
/-- C4 counterexample: on a 253-row history whose first two closes differ,
the code's 1-year return divides by the FIRST close (`iloc[0]`), not the
close at the 252-trading-day offset from the latest as the claim states. -/
theorem stock_returns_1yr_offset_counterexample :
    (get_stock_metrics_returns exCloses).2.2 ≠
      some ((exCloses.getD (exCloses.length - 1) 0 /
             exCloses.getD (exCloses.length - 252) 0 - 1) * 100) := by
  simp only [get_stock_metrics_returns, exCloses_length, List.getD_eq_getElem?_getD]
  norm_num [exCloses_elem0, exCloses_elem1, exCloses_elem252]

/-- C4 amended: for a non-empty close history of n rows, the 1-month,
3-month, and 1-year returns are null exactly when n < 21, 63 and 252
respectively; when present, the 1-month and 3-month returns divide the
latest close by the closes at the 21- and 63-trading-day offsets, while
the 1-year return divides by the FIRST close of the fetched history
(which is the 252-offset close only when n is exactly 252). -/
theorem stock_returns_spec (closes : List ℚ) (_h : closes ≠ []) :
    ((get_stock_metrics_returns closes).1 = none ↔ closes.length < 21) ∧
    (21 ≤ closes.length →
      (get_stock_metrics_returns closes).1 =
        some ((closes.getD (closes.length - 1) 0 /
               closes.getD (closes.length - 21) 0 - 1) * 100)) ∧
    ((get_stock_metrics_returns closes).2.1 = none ↔ closes.length < 63) ∧
    (63 ≤ closes.length →
      (get_stock_metrics_returns closes).2.1 =
        some ((closes.getD (closes.length - 1) 0 /
               closes.getD (closes.length - 63) 0 - 1) * 100)) ∧
    ((get_stock_metrics_returns closes).2.2 = none ↔ closes.length < 252) ∧
    (252 ≤ closes.length →
      (get_stock_metrics_returns closes).2.2 =
        some ((closes.getD (closes.length - 1) 0 /
               closes.getD 0 0 - 1) * 100)) := by
  refine ⟨?_, ?_, ?_, ?_, ?_, ?_⟩ <;>
    simp [get_stock_metrics_returns, Nat.lt_iff_add_one_le, Nat.not_le,
      apply_ite (· = (none : Option ℚ))]

theorem stock_returns_spec_witness :
    ((get_stock_metrics_returns [5]).1 = none ↔ ([5] : List ℚ).length < 21) ∧
    (21 ≤ ([5] : List ℚ).length →
      (get_stock_metrics_returns [5]).1 =
        some ((([5] : List ℚ).getD (([5] : List ℚ).length - 1) 0 /
               ([5] : List ℚ).getD (([5] : List ℚ).length - 21) 0 - 1) * 100)) ∧
    ((get_stock_metrics_returns [5]).2.1 = none ↔ ([5] : List ℚ).length < 63) ∧
    (63 ≤ ([5] : List ℚ).length →
      (get_stock_metrics_returns [5]).2.1 =
        some ((([5] : List ℚ).getD (([5] : List ℚ).length - 1) 0 /
               ([5] : List ℚ).getD (([5] : List ℚ).length - 63) 0 - 1) * 100)) ∧
    ((get_stock_metrics_returns [5]).2.2 = none ↔ ([5] : List ℚ).length < 252) ∧
    (252 ≤ ([5] : List ℚ).length →
      (get_stock_metrics_returns [5]).2.2 =
        some ((([5] : List ℚ).getD (([5] : List ℚ).length - 1) 0 /
               ([5] : List ℚ).getD 0 0 - 1) * 100)) :=
  stock_returns_spec [5] (by decide)

/-! ## C1: simulation agrees with the closed form -/

theorem investMonthStep_iterate_fst_ne (m c : ℚ) (hm : m ≠ 0) (M : ℕ) (v t : ℚ) :
    ((investMonthStep m c)^[M] (v, t)).1 =
      v * (1 + m) ^ M + c * (((1 + m) ^ M - 1) / m) := by
  induction M with
  | zero => simp
  | succ M ih =>
    rw [Function.iterate_succ_apply']
    simp only [investMonthStep]
    rw [ih]
    field_simp
    ring

theorem investMonthStep_iterate_fst_zero (c : ℚ) (M : ℕ) (v t : ℚ) :
    ((investMonthStep 0 c)^[M] (v, t)).1 = v + c * M := by
  induction M with
  | zero => simp
  | succ M ih =>
    rw [Function.iterate_succ_apply']
    simp only [investMonthStep]
    rw [ih]
    push_cast
    ring

theorem investState_eq_iterate (init c m : ℚ) (N : ℕ) :
    investState init c m N = (investMonthStep m c)^[N * 12] (init, init) := by
  induction N with
  | zero => simp [investState]
  | succ N ih =>
    rw [investState, ih, ← Function.iterate_add_apply]
    congr 1
    omega

/-- C1: for initial_investment ≥ 0, monthly_contribution ≥ 0, years ≥ 0 and
annual rate ≥ 0, the value at the year-N point of the year-by-year
simulation of `create_investment_growth_chart` equals the final_amount of
the closed-form `calculate_investment_returns` (exactly, in rational
arithmetic). -/
theorem invest_growth_matches_closed_form
    (initial_investment monthly_contribution : ℚ) (years : ℕ)
    (rate_of_return : ℚ) (_hinit : 0 ≤ initial_investment)
    (_hc : 0 ≤ monthly_contribution) (hr : 0 ≤ rate_of_return) :
    ((create_investment_growth_chart_data initial_investment
        monthly_contribution years rate_of_return).getD years default).value =
      (calculate_investment_returns initial_investment monthly_contribution
        years rate_of_return).1 := by
  have hval : ((create_investment_growth_chart_data initial_investment
      monthly_contribution years rate_of_return).getD years default).value =
      (investState initial_investment monthly_contribution
        (rate_of_return / 12) years).1 := by
    simp [create_investment_growth_chart_data, List.getD_eq_getElem?_getD,
      List.getElem?_range, Nat.lt_succ_self]
  rw [hval, investState_eq_iterate]
  rcases eq_or_lt_of_le hr with h0 | hpos
  · rw [← h0]
    have hm0 : (0 : ℚ) / 12 = 0 := by norm_num
    rw [hm0, investMonthStep_iterate_fst_zero]
    simp only [calculate_investment_returns]
    rw [hm0, if_neg (lt_irrefl (0 : ℚ))]
    push_cast
    ring
  · have hm : (0 : ℚ) < rate_of_return / 12 := by positivity
    rw [investMonthStep_iterate_fst_ne _ _ (ne_of_gt hm)]
    simp only [calculate_investment_returns]
    rw [if_pos hm]

theorem invest_growth_matches_closed_form_witness :
    ((create_investment_growth_chart_data 1000 100 1 0).getD 1 default).value =
      (calculate_investment_returns 1000 100 1 0).1 :=
  invest_growth_matches_closed_form 1000 100 1 0 (by norm_num) (by norm_num)
    (by norm_num)

/-! ## C3: amortization schedule properties -/

theorem amortAux_length (pay m : ℚ) (k : ℕ) :
    ∀ start b, (amortAux pay m start k b).length = k := by
  induction k with
  | zero => intro start b; rfl
  | succ k ih => intro start b; simp [amortAux, ih]

theorem amortAux_sum_principal (pay m : ℚ) (k : ℕ) :
    ∀ start b, ((amortAux pay m start k b).map (·.principal)).sum =
      b - amortBal pay m k b := by
  induction k with
  | zero => intro start b; simp [amortAux, amortBal]
  | succ k ih =>
    intro start b
    rw [amortAux]
    simp only [List.map_cons, List.sum_cons, ih]
    rw [amortBal]
    have hb : b - (pay - b * m) = b * (1 + m) - pay := by ring
    rw [hb]
    ring

theorem amortAux_last_balance (pay m : ℚ) (k : ℕ) :
    ∀ start b d, ((amortAux pay m start (k + 1) b).getLastD d).remaining_balance =
      max 0 (amortBal pay m (k + 1) b) := by
  induction k with
  | zero =>
    intro start b d
    rw [amortAux, amortAux]
    simp only [List.getLastD_cons, List.getLastD_nil]
    rw [amortBal, amortBal]
    have hb : b - (pay - b * m) = b * (1 + m) - pay := by ring
    rw [hb]
  | succ k ih =>
    intro start b d
    rw [amortAux]
    simp only [List.getLastD_cons]
    rw [ih]
    have hb : b - (pay - b * m) = b * (1 + m) - pay := by ring
    conv_rhs => rw [amortBal]
    rw [hb]

theorem amortAux_balance_nonneg (pay m : ℚ) (k : ℕ) :
    ∀ start b, ∀ row ∈ amortAux pay m start k b, 0 ≤ row.remaining_balance := by
  induction k with
  | zero => intro start b row h; simp [amortAux] at h
  | succ k ih =>
    intro start b row h
    rw [amortAux] at h
    rcases List.mem_cons.mp h with h | h
    · rw [h]
      exact le_max_left 0 _
    · exact ih _ _ row h

theorem amortBal_zero_rate (pay : ℚ) (k : ℕ) :
    ∀ b, amortBal pay 0 k b = b - k * pay := by
  induction k with
  | zero => intro b; simp [amortBal]
  | succ k ih =>
    intro b
    rw [amortBal, ih]
    push_cast
    ring

theorem amortBal_closed_form (pay m : ℚ) (hm : m ≠ 0) (k : ℕ) :
    ∀ b, amortBal pay m k b =
      b * (1 + m) ^ k - pay * (((1 + m) ^ k - 1) / m) := by
  induction k with
  | zero => intro b; simp [amortBal]
  | succ k ih =>
    intro b
    rw [amortBal, ih]
    field_simp
    ring

/-- After `years * 12` months at the payment computed by
`calculate_loan_payment`, the running balance is exactly 0. -/
theorem amortBal_payoff (principal annual_rate : ℚ) (years : ℕ)
    (hr : 0 ≤ annual_rate) (hy : 0 < years) :
    amortBal (calculate_loan_payment principal annual_rate years)
      (annual_rate / 12) (years * 12) principal = 0 := by
  have hn : ((years * 12 : ℕ) : ℚ) ≠ 0 := by
    have : years * 12 ≠ 0 := by omega
    exact_mod_cast Nat.cast_ne_zero.mpr this
  rcases eq_or_lt_of_le hr with h0 | hpos
  · rw [← h0]
    have hm0 : (0 : ℚ) / 12 = 0 := by norm_num
    rw [hm0, amortBal_zero_rate, calculate_loan_payment]
    simp only [hm0, if_pos rfl]
    field_simp
  · have hm : (0 : ℚ) < annual_rate / 12 := by positivity
    have hm' : annual_rate / 12 ≠ 0 := ne_of_gt hm
    have hq : (1 : ℚ) < 1 + annual_rate / 12 := by linarith
    have hqn : (1 : ℚ) < (1 + annual_rate / 12) ^ (years * 12) :=
      one_lt_pow₀ hq (by omega)
    have hqn' : (1 + annual_rate / 12) ^ (years * 12) - 1 ≠ 0 :=
      sub_ne_zero.mpr (ne_of_gt hqn)
    rw [amortBal_closed_form _ _ hm']
    simp only [calculate_loan_payment, if_neg hm']
    generalize hQ : (1 + annual_rate / 12) ^ (years * 12) = Q at hqn'
    generalize hA : annual_rate / 12 = A at hm'
    field_simp
    ring

/-- C3: for every principal > 0, annual rate ≥ 0 and years > 0, the
amortization schedule has exactly years*12 rows, its final row's stored
remaining_balance is exactly 0, the principal portions sum exactly to the
principal, and every stored remaining_balance is ≥ 0. -/
theorem amortization_schedule_spec (principal annual_rate : ℚ) (years : ℕ)
    (_hP : 0 < principal) (hr : 0 ≤ annual_rate) (hy : 0 < years) :
    (generate_amortization_schedule principal annual_rate years).length =
      years * 12 ∧
    ((generate_amortization_schedule principal annual_rate
        years).getLastD default).remaining_balance = 0 ∧
    ((generate_amortization_schedule principal annual_rate years).map
      (·.principal)).sum = principal ∧
    (∀ row ∈ generate_amortization_schedule principal annual_rate years,
      0 ≤ row.remaining_balance) := by
  obtain ⟨k, hk⟩ : ∃ k, years * 12 = k + 1 := ⟨years * 12 - 1, by omega⟩
  have hpayoff := amortBal_payoff principal annual_rate years hr hy
  refine ⟨amortAux_length _ _ _ _ _, ?_, ?_, fun row h =>
    amortAux_balance_nonneg _ _ _ _ _ row h⟩
  · rw [generate_amortization_schedule, hk, amortAux_last_balance, ← hk, hpayoff]
    simp
  · rw [generate_amortization_schedule, amortAux_sum_principal, hpayoff, sub_zero]

theorem amortization_schedule_spec_witness :
    (generate_amortization_schedule 1200 0 1).length = 1 * 12 ∧
    ((generate_amortization_schedule 1200 0
        1).getLastD default).remaining_balance = 0 ∧
    ((generate_amortization_schedule 1200 0 1).map (·.principal)).sum = 1200 ∧
    (∀ row ∈ generate_amortization_schedule 1200 0 1,
      0 ≤ row.remaining_balance) :=
  amortization_schedule_spec 1200 0 1 (by norm_num) (by norm_num) (by norm_num)

/-! ## C2 and C10: mortgage sweep infrastructure -/

theorem mortgageSweepFold_fst (f : ℕ → Option PricePoint) (ks : List ℕ) :
    ∀ acc mp,
      (ks.foldl (mortgageSweepStep f) (acc, mp)).1 = acc ++ ks.filterMap f := by
  induction ks with
  | nil => intro acc mp; simp
  | cons k ks ih =>
    intro acc mp
    cases h : f k with
    | none => simp [mortgageSweepStep, h, ih]
    | some pt => simp [mortgageSweepStep, h, ih]

theorem mortgageSweepFold_snd (f : ℕ → Option PricePoint) (ks : List ℕ) :
    ∀ acc mp, (ks.foldl (mortgageSweepStep f) (acc, mp)).2 =
      (ks.filterMap f).foldl
        (fun a pt => if pt.affordable then pt.home_price else a) mp := by
  induction ks with
  | nil => intro acc mp; simp
  | cons k ks ih =>
    intro acc mp
    cases h : f k with
    | none => simp [mortgageSweepStep, h, ih]
    | some pt => simp [mortgageSweepStep, h, ih]

theorem foldl_affordable_getLastD (l : List PricePoint) :
    ∀ mp : ℚ, l.foldl (fun a pt => if pt.affordable then pt.home_price else a) mp =
      ((l.filter (·.affordable)).map (·.home_price)).getLastD mp := by
  induction l with
  | nil => intro mp; simp
  | cons pt l ih =>
    intro mp
    by_cases h : pt.affordable = true
    · rw [List.foldl_cons, List.filter_cons_of_pos h, List.map_cons,
        List.getLastD_cons, ← ih, if_pos h]
    · rw [List.foldl_cons, List.filter_cons_of_neg h, ← ih, if_neg h]

theorem le_getLastD_self_of_forall_le (a : ℚ) (l : List ℚ)
    (h : ∀ x ∈ l, a ≤ x) : a ≤ l.getLastD a := by
  rcases List.mem_cons.mp (List.getLastD_mem_cons l a) with h' | h'
  · rw [h']
  · exact h _ h'

theorem le_getLastD_of_pairwise (l : List ℚ) :
    l.Pairwise (· ≤ ·) → ∀ d, ∀ x ∈ l, x ≤ l.getLastD d := by
  induction l with
  | nil => intro _ d x hx; simp at hx
  | cons a l ih =>
    intro hl d x hx
    rw [List.pairwise_cons] at hl
    rw [List.getLastD_cons]
    rcases List.mem_cons.mp hx with rfl | hx'
    · exact le_getLastD_self_of_forall_le x l hl.1
    · exact ih hl.2 a x hx'

theorem getLastD_mem_of_ne_nil {α : Type} (l : List α) (d : α) (h : l ≠ []) :
    l.getLastD d ∈ l := by
  induction l generalizing d with
  | nil => exact absurd rfl h
  | cons a l ih =>
    rw [List.getLastD_cons]
    rcases eq_or_ne l [] with rfl | hl
    · simp
    · exact List.mem_cons_of_mem a (ih a hl)

theorem mortgagePricePoint_elim (down_payment interest_rate : ℚ)
    (term_years : ℕ) (property_tax_rate insurance pmi_rate
     max_housing_payment : ℚ) (k : ℕ) (pt : PricePoint)
    (h : mortgagePricePoint down_payment interest_rate term_years
      property_tax_rate insurance pmi_rate max_housing_payment k = some pt) :
    down_payment < (k : ℚ) * 50000 ∧
    pt = { home_price := (k : ℚ) * 50000
           monthly_payment := mortTotal down_payment interest_rate term_years
             property_tax_rate insurance pmi_rate k
           affordable := decide (mortTotal down_payment interest_rate
             term_years property_tax_rate insurance pmi_rate k ≤
               max_housing_payment)
           mortgage := mortMortgage down_payment interest_rate term_years k
           property_tax := mortTax property_tax_rate k
           insurance := insurance
           pmi := mortPmi down_payment pmi_rate k } := by
  rw [mortgagePricePoint] at h
  by_cases hc : (k : ℚ) * 50000 - down_payment ≤ 0
  · rw [if_pos hc] at h
    cases h
  · rw [if_neg hc] at h
    exact ⟨by linarith [not_le.mp hc], (Option.some.inj h).symm⟩

theorem mortgage_filterMap_pairwise_price (down_payment interest_rate : ℚ)
    (term_years : ℕ) (property_tax_rate insurance pmi_rate
     max_housing_payment : ℚ) :
    ((List.range' 1 15).filterMap (mortgagePricePoint down_payment
      interest_rate term_years property_tax_rate insurance pmi_rate
      max_housing_payment)).Pairwise
      (fun a b => a.home_price ≤ b.home_price) := by
  rw [List.pairwise_filterMap]
  refine (List.pairwise_lt_range' 1 15).imp_of_mem ?_
  intro a b _ _ hab pt hpt pt' hpt'
  obtain ⟨-, rfl⟩ := mortgagePricePoint_elim _ _ _ _ _ _ _ _ _ hpt
  obtain ⟨-, rfl⟩ := mortgagePricePoint_elim _ _ _ _ _ _ _ _ _ hpt'
  have : (a : ℚ) ≤ (b : ℚ) := by exact_mod_cast hab.le
  show (a : ℚ) * 50000 ≤ (b : ℚ) * 50000
  nlinarith

theorem mortMortgage_mono (down_payment interest_rate : ℚ) (term_years : ℕ)
    (hir : 0 ≤ interest_rate) (hterm : 0 < term_years) (k k' : ℕ)
    (hkk : k ≤ k') :
    mortMortgage down_payment interest_rate term_years k ≤
      mortMortgage down_payment interest_rate term_years k' := by
  have hkQ : (k : ℚ) ≤ (k' : ℚ) := by exact_mod_cast hkk
  have hloan : (k : ℚ) * 50000 - down_payment ≤
      (k' : ℚ) * 50000 - down_payment := by nlinarith
  rw [mortMortgage, mortMortgage]
  by_cases hm : interest_rate / 12 = 0
  · rw [if_pos hm, if_pos hm]
    have hn : (0 : ℚ) < ((term_years * 12 : ℕ) : ℚ) := by
      have : 0 < term_years * 12 := by omega
      exact_mod_cast this
    exact div_le_div_of_nonneg_right hloan hn.le
  · rw [if_neg hm, if_neg hm]
    have hm' : 0 < interest_rate / 12 :=
      lt_of_le_of_ne (by positivity) (Ne.symm hm)
    have hq : (0 : ℚ) < 1 + interest_rate / 12 := by linarith
    have hqn : (1 : ℚ) < (1 + interest_rate / 12) ^ (term_years * 12) :=
      one_lt_pow₀ (by linarith) (by omega)
    have hfac : 0 ≤ interest_rate / 12 *
        (1 + interest_rate / 12) ^ (term_years * 12) := by positivity
    have hden : (0 : ℚ) < (1 + interest_rate / 12) ^ (term_years * 12) - 1 := by
      linarith
    exact div_le_div_of_nonneg_right
      (mul_le_mul_of_nonneg_right hloan hfac) hden.le

theorem mortTax_mono (property_tax_rate : ℚ) (hptr : 0 ≤ property_tax_rate)
    (k k' : ℕ) (hkk : k ≤ k') :
    mortTax property_tax_rate k ≤ mortTax property_tax_rate k' := by
  have hkQ : (k : ℚ) ≤ (k' : ℚ) := by exact_mod_cast hkk
  rw [mortTax, mortTax]
  have := mul_le_mul_of_nonneg_right
    (by nlinarith : (k : ℚ) * 50000 ≤ (k' : ℚ) * 50000) hptr
  linarith

theorem mortPmi_mono (down_payment pmi_rate : ℚ) (hdown : 0 ≤ down_payment)
    (hpmir : 0 ≤ pmi_rate) (k k' : ℕ) (hk : 1 ≤ k) (hkk : k ≤ k') :
    mortPmi down_payment pmi_rate k ≤ mortPmi down_payment pmi_rate k' := by
  have hkQ : (1 : ℚ) ≤ (k : ℚ) := by exact_mod_cast hk
  have hk'Q : (k : ℚ) ≤ (k' : ℚ) := by exact_mod_cast hkk
  have hp : (0 : ℚ) < (k : ℚ) * 50000 := by nlinarith
  have hp' : (0 : ℚ) < (k' : ℚ) * 50000 := by nlinarith
  have hpp : (k : ℚ) * 50000 ≤ (k' : ℚ) * 50000 := by nlinarith
  rw [mortPmi, mortPmi]
  by_cases h' : down_payment / ((k' : ℚ) * 50000) < 2 / 10
  · rw [if_pos h']
    by_cases hcase : down_payment / ((k : ℚ) * 50000) < 2 / 10
    · rw [if_pos hcase]
      have := mul_le_mul_of_nonneg_right
        (by linarith : (k : ℚ) * 50000 - down_payment ≤
          (k' : ℚ) * 50000 - down_payment) hpmir
      linarith
    · rw [if_neg hcase]
      have hlt : down_payment < 2 / 10 * ((k' : ℚ) * 50000) :=
        (div_lt_iff₀ hp').mp h'
      have hloan' : (0 : ℚ) < (k' : ℚ) * 50000 - down_payment := by linarith
      positivity
  · rw [if_neg h']
    have hmono : down_payment / ((k' : ℚ) * 50000) ≤
        down_payment / ((k : ℚ) * 50000) :=
      div_le_div_of_nonneg_left hdown hp hpp
    rw [if_neg (not_lt.mpr ((not_lt.mp h').trans hmono))]

theorem mortTotal_mono (down_payment interest_rate : ℚ) (term_years : ℕ)
    (property_tax_rate insurance pmi_rate : ℚ) (hdown : 0 ≤ down_payment)
    (hir : 0 ≤ interest_rate) (hterm : 0 < term_years)
    (hptr : 0 ≤ property_tax_rate) (hpmir : 0 ≤ pmi_rate) (k k' : ℕ)
    (hk : 1 ≤ k) (hkk : k ≤ k') :
    mortTotal down_payment interest_rate term_years property_tax_rate
      insurance pmi_rate k ≤
    mortTotal down_payment interest_rate term_years property_tax_rate
      insurance pmi_rate k' := by
  rw [mortTotal, mortTotal]
  have h1 := mortMortgage_mono down_payment interest_rate term_years hir
    hterm k k' hkk
  have h2 := mortTax_mono property_tax_rate hptr k k' hkk
  have h3 := mortPmi_mono down_payment pmi_rate hdown hpmir k k' hk hkk
  linarith

theorem mortgage_filterMap_pairwise_payment (down_payment interest_rate : ℚ)
    (term_years : ℕ) (property_tax_rate insurance pmi_rate
     max_housing_payment : ℚ) (hdown : 0 ≤ down_payment)
    (hir : 0 ≤ interest_rate) (hterm : 0 < term_years)
    (hptr : 0 ≤ property_tax_rate) (hpmir : 0 ≤ pmi_rate) :
    ((List.range' 1 15).filterMap (mortgagePricePoint down_payment
      interest_rate term_years property_tax_rate insurance pmi_rate
      max_housing_payment)).Pairwise
      (fun a b => a.home_price ≤ b.home_price ∧
        a.monthly_payment ≤ b.monthly_payment) := by
  rw [List.pairwise_filterMap]
  refine (List.pairwise_lt_range' 1 15).imp_of_mem ?_
  intro a b ha _ hab pt hpt pt' hpt'
  have ha1 : 1 ≤ a := by
    obtain ⟨i, -, rfl⟩ := List.mem_range'.mp ha
    omega
  obtain ⟨-, rfl⟩ := mortgagePricePoint_elim _ _ _ _ _ _ _ _ _ hpt
  obtain ⟨-, rfl⟩ := mortgagePricePoint_elim _ _ _ _ _ _ _ _ _ hpt'
  refine ⟨?_, mortTotal_mono _ _ _ _ _ _ hdown hir hterm hptr hpmir
    a b ha1 hab.le⟩
  have : (a : ℚ) ≤ (b : ℚ) := by exact_mod_cast hab.le
  show (a : ℚ) * 50000 ≤ (b : ℚ) * 50000
  nlinarith

theorem mortgageSweep_fst (down_payment interest_rate : ℚ) (term_years : ℕ)
    (property_tax_rate insurance pmi_rate max_housing_payment : ℚ) :
    (mortgageSweep down_payment interest_rate term_years property_tax_rate
      insurance pmi_rate max_housing_payment).1 =
      (List.range' 1 15).filterMap (mortgagePricePoint down_payment
        interest_rate term_years property_tax_rate insurance pmi_rate
        max_housing_payment) := by
  rw [mortgageSweep, mortgageSweepFold_fst]
  exact List.nil_append _

theorem mortgageSweep_snd (down_payment interest_rate : ℚ) (term_years : ℕ)
    (property_tax_rate insurance pmi_rate max_housing_payment : ℚ) :
    (mortgageSweep down_payment interest_rate term_years property_tax_rate
      insurance pmi_rate max_housing_payment).2 =
      (((List.range' 1 15).filterMap (mortgagePricePoint down_payment
          interest_rate term_years property_tax_rate insurance pmi_rate
          max_housing_payment)).filter (·.affordable)
        |>.map (·.home_price)).getLastD 0 := by
  rw [mortgageSweep, mortgageSweepFold_snd, foldl_affordable_getLastD]

theorem mortgage_points_affordable_iff (down_payment interest_rate : ℚ)
    (term_years : ℕ) (property_tax_rate insurance pmi_rate
     max_housing_payment : ℚ) (pt : PricePoint)
    (hpt : pt ∈ (List.range' 1 15).filterMap (mortgagePricePoint down_payment
      interest_rate term_years property_tax_rate insurance pmi_rate
      max_housing_payment)) :
    pt.affordable = true ↔ pt.monthly_payment ≤ max_housing_payment := by
  obtain ⟨k, -, hk⟩ := List.mem_filterMap.mp hpt
  obtain ⟨-, rfl⟩ := mortgagePricePoint_elim _ _ _ _ _ _ _ _ _ hk
  simp

/-- C2: for positive income, `analyze_mortgage_affordability` computes
max_housing_payment = min(0.28 * income/12, 0.36 * income/12 - debt);
every generated price point is flagged affordable iff its monthly_payment
is at most max_housing_payment; and max_affordable_price is the highest
home_price among affordable points (0 when none is affordable). -/
theorem mortgage_affordability_spec
    (income debt down_payment interest_rate : ℚ) (term_years : ℕ)
    (property_tax_rate insurance pmi_rate : ℚ) (_hinc : 0 < income)
    (res : MortgageAffordability)
    (hres : res = analyze_mortgage_affordability income debt down_payment
      interest_rate term_years property_tax_rate insurance pmi_rate) :
    res.max_housing_payment =
      min (28 / 100 * income / 12) (36 / 100 * income / 12 - debt) ∧
    (∀ pt ∈ res.price_ranges,
      (pt.affordable = true ↔ pt.monthly_payment ≤ res.max_housing_payment)) ∧
    (∀ pt ∈ res.price_ranges, pt.affordable = true →
      pt.home_price ≤ res.max_affordable_price) ∧
    ((∃ pt ∈ res.price_ranges, pt.affordable = true) →
      ∃ pt ∈ res.price_ranges, pt.affordable = true ∧
        res.max_affordable_price = pt.home_price) ∧
    ((∀ pt ∈ res.price_ranges, pt.affordable = false) →
      res.max_affordable_price = 0) := by
  subst hres
  simp only [analyze_mortgage_affordability]
  rw [mortgageSweep_fst, mortgageSweep_snd]
  set mh := min (income / 12 * (28 / 100)) (income / 12 * (36 / 100) - debt)
    with hmh
  set ps := (List.range' 1 15).filterMap (mortgagePricePoint down_payment
    interest_rate term_years property_tax_rate insurance pmi_rate mh)
    with hps
  have hpair : (ps.filter (·.affordable) |>.map (·.home_price)).Pairwise
      (· ≤ ·) := by
    refine List.Pairwise.map _ (fun a b h => h) ?_
    exact (mortgage_filterMap_pairwise_price down_payment interest_rate
      term_years property_tax_rate insurance pmi_rate mh).filter _
  refine ⟨?_, ?_, ?_, ?_, ?_⟩
  · rw [hmh]
    congr 1 <;> ring
  · intro pt hpt
    exact mortgage_points_affordable_iff _ _ _ _ _ _ _ pt hpt
  · intro pt hpt haff
    have hmem : pt.home_price ∈ (ps.filter (·.affordable)
        |>.map (·.home_price)) :=
      List.mem_map_of_mem _ (List.mem_filter.mpr ⟨hpt, haff⟩)
    exact le_getLastD_of_pairwise _ hpair 0 _ hmem
  · rintro ⟨pt, hpt, haff⟩
    have hne : (ps.filter (·.affordable) |>.map (·.home_price)) ≠ [] := by
      have : pt ∈ ps.filter (·.affordable) :=
        List.mem_filter.mpr ⟨hpt, haff⟩
      simp only [ne_eq, List.map_eq_nil_iff]
      exact List.ne_nil_of_mem this
    obtain ⟨q, hq, hqval⟩ := List.mem_map.mp
      (getLastD_mem_of_ne_nil _ 0 hne)
    exact ⟨q, List.mem_of_mem_filter hq,
      List.of_mem_filter hq, hqval.symm⟩
  · intro hnone
    rw [List.filter_eq_nil_iff.mpr (by simpa using hnone)]
    rfl

theorem mortgage_affordability_spec_witness :
    (analyze_mortgage_affordability 12 0 0 0 1 0 0 0).max_housing_payment =
      min (28 / 100 * 12 / 12) (36 / 100 * 12 / 12 - 0) ∧
    (∀ pt ∈ (analyze_mortgage_affordability 12 0 0 0 1 0 0 0).price_ranges,
      (pt.affordable = true ↔ pt.monthly_payment ≤
        (analyze_mortgage_affordability 12 0 0 0 1 0 0
          0).max_housing_payment)) ∧
    (∀ pt ∈ (analyze_mortgage_affordability 12 0 0 0 1 0 0 0).price_ranges,
      pt.affordable = true → pt.home_price ≤
        (analyze_mortgage_affordability 12 0 0 0 1 0 0
          0).max_affordable_price) ∧
    ((∃ pt ∈ (analyze_mortgage_affordability 12 0 0 0 1 0 0 0).price_ranges,
        pt.affordable = true) →
      ∃ pt ∈ (analyze_mortgage_affordability 12 0 0 0 1 0 0 0).price_ranges,
        pt.affordable = true ∧
        (analyze_mortgage_affordability 12 0 0 0 1 0 0
          0).max_affordable_price = pt.home_price) ∧
    ((∀ pt ∈ (analyze_mortgage_affordability 12 0 0 0 1 0 0 0).price_ranges,
        pt.affordable = false) →
      (analyze_mortgage_affordability 12 0 0 0 1 0 0
        0).max_affordable_price = 0) :=
  mortgage_affordability_spec 12 0 0 0 1 0 0 0 (by norm_num) _ rfl

theorem filter_eq_takeWhile_of_downward_closed (l : List PricePoint)
    (h : l.Pairwise (fun a b => b.affordable = true → a.affordable = true)) :
    l.filter (·.affordable) = l.takeWhile (·.affordable) := by
  induction l with
  | nil => rfl
  | cons x l ih =>
    rw [List.pairwise_cons] at h
    by_cases hx : x.affordable = true
    · rw [List.filter_cons_of_pos hx, List.takeWhile_cons_of_pos hx, ih h.2]
    · rw [List.filter_cons_of_neg hx, List.takeWhile_cons_of_neg hx]
      exact List.filter_eq_nil_iff.mpr fun a ha haff => hx (h.1 a ha haff)

/-- C10: with down_payment ≥ 0, interest_rate ≥ 0, term_years > 0,
property_tax_rate ≥ 0, insurance ≥ 0 and pmi_rate ≥ 0, the generated price
points have nondecreasing home_price and nondecreasing monthly_payment,
the affordable points form a prefix of the sequence (filter = takeWhile),
and max_affordable_price is the home_price of the last point of that
prefix (0 for the empty prefix). -/
theorem mortgage_sweep_monotone_prefix
    (income debt down_payment interest_rate : ℚ) (term_years : ℕ)
    (property_tax_rate insurance pmi_rate : ℚ)
    (hdown : 0 ≤ down_payment) (hir : 0 ≤ interest_rate)
    (hterm : 0 < term_years) (hptr : 0 ≤ property_tax_rate)
    (_hins : 0 ≤ insurance) (hpmir : 0 ≤ pmi_rate)
    (res : MortgageAffordability)
    (hres : res = analyze_mortgage_affordability income debt down_payment
      interest_rate term_years property_tax_rate insurance pmi_rate) :
    res.price_ranges.Pairwise (fun a b => a.home_price ≤ b.home_price ∧
      a.monthly_payment ≤ b.monthly_payment) ∧
    res.price_ranges.filter (·.affordable) =
      res.price_ranges.takeWhile (·.affordable) ∧
    res.max_affordable_price =
      ((res.price_ranges.takeWhile (·.affordable)).map
        (·.home_price)).getLastD 0 := by
  subst hres
  simp only [analyze_mortgage_affordability]
  rw [mortgageSweep_fst, mortgageSweep_snd]
  set mh := min (income / 12 * (28 / 100)) (income / 12 * (36 / 100) - debt)
    with hmh
  set ps := (List.range' 1 15).filterMap (mortgagePricePoint down_payment
    interest_rate term_years property_tax_rate insurance pmi_rate mh)
    with hps
  have hpair := mortgage_filterMap_pairwise_payment down_payment
    interest_rate term_years property_tax_rate insurance pmi_rate mh
    hdown hir hterm hptr hpmir
  rw [← hps] at hpair
  have hdc : ps.Pairwise
      (fun a b => b.affordable = true → a.affordable = true) := by
    refine hpair.imp_of_mem ?_
    intro a b ha hb hab haffb
    have hib := mortgage_points_affordable_iff down_payment interest_rate
      term_years property_tax_rate insurance pmi_rate mh b (hps ▸ hb)
    have hia := mortgage_points_affordable_iff down_payment interest_rate
      term_years property_tax_rate insurance pmi_rate mh a (hps ▸ ha)
    exact hia.mpr (le_trans hab.2 (hib.mp haffb))
  have hft := filter_eq_takeWhile_of_downward_closed ps hdc
  exact ⟨hpair, hft, by rw [← hft]⟩

theorem mortgage_sweep_monotone_prefix_witness :
    (analyze_mortgage_affordability 12 0 0 0 1 0 0 0).price_ranges.Pairwise
      (fun a b => a.home_price ≤ b.home_price ∧
        a.monthly_payment ≤ b.monthly_payment) ∧
    (analyze_mortgage_affordability 12 0 0 0 1 0 0 0).price_ranges.filter
        (·.affordable) =
      (analyze_mortgage_affordability 12 0 0 0 1 0 0 0).price_ranges.takeWhile
        (·.affordable) ∧
    (analyze_mortgage_affordability 12 0 0 0 1 0 0 0).max_affordable_price =
      (((analyze_mortgage_affordability 12 0 0 0 1 0 0
            0).price_ranges.takeWhile (·.affordable)).map
        (·.home_price)).getLastD 0 :=
  mortgage_sweep_monotone_prefix 12 0 0 0 1 0 0 0 (by norm_num) (by norm_num)
    (by norm_num) (by norm_num) (by norm_num) (by norm_num) _ rfl

end ArthaAI
